import Mathlib

/-!
Shallow embedding of the machining cost calculator (app.py, app1.py, app2.py).

Each of the three scripts runs the same material-cost block and then a
machining-cost block that differs in its guards:

  app.py  (lines 25-44): no guards at all; both divisions can raise
          ZeroDivisionError (modelled by returning `none`).
  app1.py (lines 54-65): the spindle-speed division is unguarded; machining_time
          falls back to float("inf") when `spindle_speed > 0 and feed_rate > 0`
          fails, and the infinity propagates through the float arithmetic
          (modelled by the extended type `XF`).
  app2.py (lines 74-103): a `D_final > 0` guard selects a degenerate branch in
          which spindle_speed = 0, machining_cost = 0.0, total_cost =
          material_cost, and machining_time / total_time are never assigned
          (modelled by `none` fields); otherwise machining_time falls back to
          0.0 under the same inner guard.

Python float arithmetic is idealised as exact rational arithmetic; `math.pi`
becomes an explicit rational parameter `pi` (theorems assume bounds on it).
-/

/-- The record of the nine sidebar inputs shared by the three variants. -/
structure MachiningInput where
  D_raw : ℚ
  L_raw : ℚ
  density : ℚ
  cost_per_kg : ℚ
  D_final : ℚ
  cutting_speed : ℚ
  feed_rate : ℚ
  MHR : ℚ
  chamfer_time : ℚ
deriving DecidableEq, Repr

/-- app.py line 25: `volume_mm3 = math.pi * ((D_raw / 2) ** 2) * L_raw`
(identical in app1.py line 54 and app2.py line 74). -/
def volume_mm3 (pi : ℚ) (i : MachiningInput) : ℚ :=
  pi * (i.D_raw / 2) ^ 2 * i.L_raw

/-- app.py line 27: `volume_cm3 = volume_mm3 / 1000`. -/
def volume_cm3 (pi : ℚ) (i : MachiningInput) : ℚ :=
  volume_mm3 pi i / 1000

/-- app.py line 29: `weight_kg = (volume_cm3 * density) / 1000`. -/
def weight_kg (pi : ℚ) (i : MachiningInput) : ℚ :=
  volume_cm3 pi i * i.density / 1000

/-- app.py line 31: `material_cost = weight_kg * cost_per_kg`. -/
def material_cost (pi : ℚ) (i : MachiningInput) : ℚ :=
  weight_kg pi i * i.cost_per_kg

/-- An IEEE-style extended value: a finite rational, plus infinity, minus
infinity, or NaN. Models the Python floats produced once app1.py introduces
`float("inf")` for machining_time. -/
inductive XF where
  | fin (q : ℚ)
  | pinf
  | ninf
  | nan
deriving DecidableEq, Repr

/-- IEEE addition on extended values (exact on finite operands). -/
def XF.add : XF → XF → XF
  | .nan, _ => .nan
  | _, .nan => .nan
  | .fin a, .fin b => .fin (a + b)
  | .fin _, .pinf => .pinf
  | .pinf, .fin _ => .pinf
  | .pinf, .pinf => .pinf
  | .fin _, .ninf => .ninf
  | .ninf, .fin _ => .ninf
  | .ninf, .ninf => .ninf
  | .pinf, .ninf => .nan
  | .ninf, .pinf => .nan

/-- IEEE multiplication on extended values (exact on finite operands);
infinity times zero is NaN. -/
def XF.mul : XF → XF → XF
  | .nan, _ => .nan
  | _, .nan => .nan
  | .fin a, .fin b => .fin (a * b)
  | .pinf, .fin b => if 0 < b then .pinf else if b < 0 then .ninf else .nan
  | .fin a, .pinf => if 0 < a then .pinf else if a < 0 then .ninf else .nan
  | .ninf, .fin b => if 0 < b then .ninf else if b < 0 then .pinf else .nan
  | .fin a, .ninf => if 0 < a then .ninf else if a < 0 then .pinf else .nan
  | .pinf, .pinf => .pinf
  | .pinf, .ninf => .ninf
  | .ninf, .pinf => .ninf
  | .ninf, .ninf => .pinf

/-- Division of an extended value by a positive finite constant, as in
`total_time_min / 60.0`. -/
def XF.divBy : XF → ℚ → XF
  | .fin a, c => .fin (a / c)
  | .pinf, _ => .pinf
  | .ninf, _ => .ninf
  | .nan, _ => .nan

/-- The CostResult record of app.py: every intermediate of its calculation
block (lines 25-44). -/
structure CostResult where
  volume_cm3 : ℚ
  weight_kg : ℚ
  material_cost : ℚ
  spindle_speed : ℚ
  machining_time : ℚ
  total_time_min : ℚ
  total_time_hr : ℚ
  machining_cost : ℚ
  total_cost : ℚ
deriving DecidableEq, Repr

/-- The calculation block of app.py (lines 25-44). There is no guard: Python
raises ZeroDivisionError when the denominator of a division is exactly zero, which
is modelled by returning `none`. -/
def app_calc (pi : ℚ) (i : MachiningInput) : Option CostResult :=
  let vcm := volume_cm3 pi i
  let wkg := weight_kg pi i
  let mcost := material_cost pi i
  if pi * i.D_final = 0 then none
  else
    let spindle := 1000 * i.cutting_speed / (pi * i.D_final)
    if i.feed_rate * spindle = 0 then none
    else
      let mt := i.L_raw / (i.feed_rate * spindle)
      let ttm := mt + i.chamfer_time
      let tth := ttm / 60
      let mach := tth * i.MHR
      some ⟨vcm, wkg, mcost, spindle, mt, ttm, tth, mach, mcost + mach⟩

/-- The result record of the app1.py calculation block: the quantities downstream
of machining_time are floats that may be infinite, hence `XF`. -/
structure App1Result where
  volume_cm3 : ℚ
  weight_kg : ℚ
  material_cost : ℚ
  spindle_speed : ℚ
  machining_time : XF
  total_time_min : XF
  total_time_hr : XF
  machining_cost : XF
  total_cost : XF
deriving DecidableEq, Repr

/-- The calculation block of app1.py (lines 54-65): the spindle-speed division
is unguarded (ZeroDivisionError modelled by `none`); machining_time is
`L_raw / (feed_rate * spindle_speed) if spindle_speed > 0 and feed_rate > 0
else float("inf")`, and the infinity propagates through `+ chamfer_time`,
`/ 60.0` and `* MHR`. -/
def app1_calc (pi : ℚ) (i : MachiningInput) : Option App1Result :=
  let vcm := volume_cm3 pi i
  let wkg := weight_kg pi i
  let mcost := material_cost pi i
  if pi * i.D_final = 0 then none
  else
    let spindle := 1000 * i.cutting_speed / (pi * i.D_final)
    let mt : XF :=
      if 0 < spindle ∧ 0 < i.feed_rate then .fin (i.L_raw / (i.feed_rate * spindle))
      else .pinf
    let ttm := mt.add (.fin i.chamfer_time)
    let tth := ttm.divBy 60
    let mach := tth.mul (.fin i.MHR)
    some ⟨vcm, wkg, mcost, spindle, mt, ttm, tth, mach, (XF.fin mcost).add mach⟩

/-- The result record of the app2.py calculation block. In the degenerate branch
the Python variables machining_time, total_time_min and total_time_hr are never
assigned, hence `Option ℚ` with value `none` there. -/
structure App2Result where
  volume_cm3 : ℚ
  weight_kg : ℚ
  material_cost : ℚ
  spindle_speed : ℚ
  machining_time : Option ℚ
  total_time_min : Option ℚ
  total_time_hr : Option ℚ
  machining_cost : ℚ
  total_cost : ℚ
deriving DecidableEq, Repr

/-- The calculation block of app2.py (lines 74-103). If `D_final > 0` the
machining block runs with machining_time guarded to fall back to 0.0; otherwise
the degenerate branch sets spindle_speed = 0, machining_cost = 0.0 and
total_cost = material_cost and assigns no time variables. -/
def app2_calc (pi : ℚ) (i : MachiningInput) : Option App2Result :=
  let vcm := volume_cm3 pi i
  let wkg := weight_kg pi i
  let mcost := material_cost pi i
  if 0 < i.D_final then
    if pi * i.D_final = 0 then none
    else
      let spindle := 1000 * i.cutting_speed / (pi * i.D_final)
      let mt :=
        if 0 < spindle ∧ 0 < i.feed_rate then i.L_raw / (i.feed_rate * spindle)
        else 0
      let ttm := mt + i.chamfer_time
      let tth := ttm / 60
      let mach := tth * i.MHR
      some ⟨vcm, wkg, mcost, spindle, some mt, some ttm, some tth, mach, mcost + mach⟩
  else
    some ⟨vcm, wkg, mcost, 0, none, none, none, 0, mcost⟩

/-- The double nearest to math.pi, as an exact rational. -/
def mathPi : ℚ := 3.141592653589793

/-- Scenario A of the spec: the default slider values of app.py. -/
def scenarioA : MachiningInput :=
  ⟨38, 257, 7.85, 55, 36, 20, 0.2, 800, 5⟩

/-- Scenario A with a negative final diameter. -/
def scenarioNegD : MachiningInput :=
  ⟨38, 257, 7.85, 55, -36, 20, 0.2, 800, 5⟩

/-- Scenario A with a zero feed rate. -/
def scenarioZeroFeed : MachiningInput :=
  ⟨38, 257, 7.85, 55, 36, 20, 0, 800, 5⟩

/-- Scenario A with a negative feed rate. -/
def scenarioNegFeed : MachiningInput :=
  ⟨38, 257, 7.85, 55, 36, 20, -0.2, 800, 5⟩

lemma app_calc_pos (pi : ℚ) (i : MachiningInput) (hpi : 0 < pi) (hd : 0 < i.D_final)
    (hf : 0 < i.feed_rate) (hc : 0 < i.cutting_speed) :
    app_calc pi i = some
      ⟨volume_cm3 pi i, weight_kg pi i, material_cost pi i,
       1000 * i.cutting_speed / (pi * i.D_final),
       i.L_raw / (i.feed_rate * (1000 * i.cutting_speed / (pi * i.D_final))),
       i.L_raw / (i.feed_rate * (1000 * i.cutting_speed / (pi * i.D_final))) + i.chamfer_time,
       (i.L_raw / (i.feed_rate * (1000 * i.cutting_speed / (pi * i.D_final))) + i.chamfer_time) / 60,
       (i.L_raw / (i.feed_rate * (1000 * i.cutting_speed / (pi * i.D_final))) + i.chamfer_time) / 60 * i.MHR,
       material_cost pi i +
         (i.L_raw / (i.feed_rate * (1000 * i.cutting_speed / (pi * i.D_final))) + i.chamfer_time) / 60 * i.MHR⟩ := by
  have h1 : pi * i.D_final ≠ 0 := by positivity
  have h2 : i.feed_rate * (1000 * i.cutting_speed / (pi * i.D_final)) ≠ 0 := by positivity
  simp only [app_calc, if_neg h1, if_neg h2]

lemma app1_calc_pos (pi : ℚ) (i : MachiningInput) (hpi : 0 < pi) (hd : 0 < i.D_final)
    (hf : 0 < i.feed_rate) (hc : 0 < i.cutting_speed) :
    app1_calc pi i = some
      ⟨volume_cm3 pi i, weight_kg pi i, material_cost pi i,
       1000 * i.cutting_speed / (pi * i.D_final),
       .fin (i.L_raw / (i.feed_rate * (1000 * i.cutting_speed / (pi * i.D_final)))),
       .fin (i.L_raw / (i.feed_rate * (1000 * i.cutting_speed / (pi * i.D_final))) + i.chamfer_time),
       .fin ((i.L_raw / (i.feed_rate * (1000 * i.cutting_speed / (pi * i.D_final))) + i.chamfer_time) / 60),
       .fin ((i.L_raw / (i.feed_rate * (1000 * i.cutting_speed / (pi * i.D_final))) + i.chamfer_time) / 60 * i.MHR),
       .fin (material_cost pi i +
         (i.L_raw / (i.feed_rate * (1000 * i.cutting_speed / (pi * i.D_final))) + i.chamfer_time) / 60 * i.MHR)⟩ := by
  have h1 : pi * i.D_final ≠ 0 := by positivity
  have hs : 0 < 1000 * i.cutting_speed / (pi * i.D_final) := by positivity
  simp only [app1_calc, if_neg h1, if_pos (And.intro hs hf)]
  rfl

lemma app2_calc_pos (pi : ℚ) (i : MachiningInput) (hpi : 0 < pi) (hd : 0 < i.D_final)
    (hf : 0 < i.feed_rate) (hc : 0 < i.cutting_speed) :
    app2_calc pi i = some
      ⟨volume_cm3 pi i, weight_kg pi i, material_cost pi i,
       1000 * i.cutting_speed / (pi * i.D_final),
       some (i.L_raw / (i.feed_rate * (1000 * i.cutting_speed / (pi * i.D_final)))),
       some (i.L_raw / (i.feed_rate * (1000 * i.cutting_speed / (pi * i.D_final))) + i.chamfer_time),
       some ((i.L_raw / (i.feed_rate * (1000 * i.cutting_speed / (pi * i.D_final))) + i.chamfer_time) / 60),
       (i.L_raw / (i.feed_rate * (1000 * i.cutting_speed / (pi * i.D_final))) + i.chamfer_time) / 60 * i.MHR,
       material_cost pi i +
         (i.L_raw / (i.feed_rate * (1000 * i.cutting_speed / (pi * i.D_final))) + i.chamfer_time) / 60 * i.MHR⟩ := by
  have h1 : pi * i.D_final ≠ 0 := by positivity
  have hs : 0 < 1000 * i.cutting_speed / (pi * i.D_final) := by positivity
  simp only [app2_calc, if_pos hd, if_neg h1, if_pos (And.intro hs hf)]

/-- C1: in each of the three variants, whenever the calculation block produces a
result (including the app2.py degenerate branch for finalDiameterMm ≤ 0), the
computed totalCost equals materialCost + machiningCost. -/
theorem total_cost_is_sum (pi : ℚ) (i : MachiningInput) :
    (∀ r : CostResult, app_calc pi i = some r →
      r.total_cost = r.material_cost + r.machining_cost) ∧
    (∀ r : App1Result, app1_calc pi i = some r →
      r.total_cost = (XF.fin r.material_cost).add r.machining_cost) ∧
    (∀ r : App2Result, app2_calc pi i = some r →
      r.total_cost = r.material_cost + r.machining_cost) := by
  refine ⟨?_, ?_, ?_⟩ <;> intro r h
  · simp only [app_calc] at h
    split_ifs at h
    obtain rfl := Option.some.inj h
    rfl
  · simp only [app1_calc] at h
    split_ifs at h <;>
      (obtain rfl := Option.some.inj h; rfl)
  · simp only [app2_calc] at h
    split_ifs at h <;>
      obtain rfl := Option.some.inj h <;>
      first
        | rfl
        | exact (add_zero _).symm

/-- C2 counterexample: at finalDiameterMm = -36 (≤ 0) with the other Scenario A
inputs, app.py computes a nonzero machiningCost and totalCost ≠ materialCost. -/
theorem app_negative_final_diameter_cex :
    scenarioNegD.D_final ≤ 0 ∧
    (app_calc mathPi scenarioNegD).map CostResult.machining_cost ≠ some 0 ∧
    (app_calc mathPi scenarioNegD).map CostResult.total_cost ≠
      (app_calc mathPi scenarioNegD).map CostResult.material_cost := by
  norm_num [app_calc, volume_cm3, volume_mm3, weight_kg, material_cost, mathPi, scenarioNegD]

/-- C2 amended: in the app2.py variant, every input with finalDiameterMm ≤ 0
takes the degenerate branch: materialCost is the unchanged material formula,
machiningCost = 0 and totalCost = materialCost. -/
theorem degenerate_final_diameter_app2 (pi : ℚ) (i : MachiningInput)
    (h : i.D_final ≤ 0) :
    ∃ r : App2Result, app2_calc pi i = some r ∧
      r.material_cost = material_cost pi i ∧
      r.machining_cost = 0 ∧
      r.total_cost = r.material_cost := by
  have hlt : ¬ 0 < i.D_final := not_lt.mpr h
  refine ⟨⟨volume_cm3 pi i, weight_kg pi i, material_cost pi i, 0,
    none, none, none, 0, material_cost pi i⟩, ?_, rfl, rfl, rfl⟩
  simp only [app2_calc, if_neg hlt]

/-- Witness for the amended C2 at the concrete input of the counterexample. -/
theorem degenerate_final_diameter_app2_witness :
    scenarioNegD.D_final ≤ 0 ∧
    ∃ r : App2Result, app2_calc mathPi scenarioNegD = some r ∧
      r.material_cost = material_cost mathPi scenarioNegD ∧
      r.machining_cost = 0 ∧
      r.total_cost = r.material_cost :=
  ⟨by norm_num [scenarioNegD],
   degenerate_final_diameter_app2 mathPi scenarioNegD (by norm_num [scenarioNegD])⟩

/-- C3 evaluated at the failing inputs: with feedRateMmPerRev = 0 (other inputs
as in Scenario A) app1.py sets machiningTimeMin to +infinity, not 0, and app.py
raises ZeroDivisionError; with feedRateMmPerRev = -0.2 app.py computes a
nonzero machiningTimeMin. -/
theorem machining_time_guard_eval :
    (app1_calc mathPi scenarioZeroFeed).map App1Result.machining_time = some XF.pinf ∧
    app_calc mathPi scenarioZeroFeed = none ∧
    (app_calc mathPi scenarioNegFeed).map CostResult.machining_time ≠ some 0 := by
  refine ⟨?_, ?_, ?_⟩ <;>
    norm_num [app_calc, app1_calc, volume_cm3, volume_mm3, weight_kg, material_cost,
      mathPi, scenarioZeroFeed, scenarioNegFeed]

/-- C4: for positive raw diameter, raw length and density, the weight computed
by steps 1-3 (shared by all three variants) has the closed form
π · rawDiameterMm² · rawLengthMm · densityGPerCm3 / 4,000,000. -/
theorem weight_kg_closed_form (pi : ℚ) (i : MachiningInput)
    (h1 : 0 < i.D_raw) (h2 : 0 < i.L_raw) (h3 : 0 < i.density) :
    weight_kg pi i = pi * i.D_raw ^ 2 * i.L_raw * i.density / 4000000 := by
  unfold weight_kg volume_cm3 volume_mm3
  ring

/-- Witness for C4 at Scenario A. -/
theorem weight_kg_closed_form_witness :
    0 < scenarioA.D_raw ∧ 0 < scenarioA.L_raw ∧ 0 < scenarioA.density ∧
    weight_kg mathPi scenarioA =
      mathPi * scenarioA.D_raw ^ 2 * scenarioA.L_raw * scenarioA.density / 4000000 :=
  ⟨by norm_num [scenarioA], by norm_num [scenarioA], by norm_num [scenarioA],
   weight_kg_closed_form mathPi scenarioA (by norm_num [scenarioA])
     (by norm_num [scenarioA]) (by norm_num [scenarioA])⟩

/-- C5 evaluated at the failing input feedRateMmPerRev = 0 (other inputs as in
Scenario A): app.py raises ZeroDivisionError instead of being total, and
app1.py propagates +infinity into the machiningCost and totalCost fields of the
export row; only app2.py stays finite. -/
theorem nonfinite_propagation_eval :
    app_calc mathPi scenarioZeroFeed = none ∧
    (app1_calc mathPi scenarioZeroFeed).map App1Result.machining_cost = some XF.pinf ∧
    (app1_calc mathPi scenarioZeroFeed).map App1Result.total_cost = some XF.pinf ∧
    (app2_calc mathPi scenarioZeroFeed).map App2Result.machining_cost =
      some ((0 + scenarioZeroFeed.chamfer_time) / 60 * scenarioZeroFeed.MHR) := by
  refine ⟨?_, ?_, ?_, ?_⟩ <;>
    norm_num [app_calc, app1_calc, app2_calc, XF.add, XF.mul, XF.divBy, volume_cm3,
      volume_mm3, weight_kg, material_cost, mathPi, scenarioZeroFeed]

/-- C6: for finalDiameterMm > 0, feedRateMmPerRev > 0 and cuttingSpeedMPerMin > 0
(with 0 < pi), app.py and app2.py compute spindleSpeedRpm =
1000·cuttingSpeed/(π·finalDiameter) and machiningCost =
((rawLength/(feedRate·spindleSpeed) + chamferTime)/60)·machineHourRate. -/
theorem spindle_and_machining_cost_formulas (pi : ℚ) (i : MachiningInput)
    (hpi : 0 < pi) (hd : 0 < i.D_final) (hf : 0 < i.feed_rate) (hc : 0 < i.cutting_speed) :
    (∃ r : CostResult, app_calc pi i = some r ∧
      r.spindle_speed = 1000 * i.cutting_speed / (pi * i.D_final) ∧
      r.machining_cost =
        (i.L_raw / (i.feed_rate * (1000 * i.cutting_speed / (pi * i.D_final))) +
          i.chamfer_time) / 60 * i.MHR) ∧
    (∃ r : App2Result, app2_calc pi i = some r ∧
      r.spindle_speed = 1000 * i.cutting_speed / (pi * i.D_final) ∧
      r.machining_cost =
        (i.L_raw / (i.feed_rate * (1000 * i.cutting_speed / (pi * i.D_final))) +
          i.chamfer_time) / 60 * i.MHR) :=
  ⟨⟨_, app_calc_pos pi i hpi hd hf hc, rfl, rfl⟩,
   ⟨_, app2_calc_pos pi i hpi hd hf hc, rfl, rfl⟩⟩

/-- Witness for C6 at Scenario A with pi := mathPi. -/
theorem spindle_and_machining_cost_formulas_witness :
    (0 : ℚ) < mathPi ∧ 0 < scenarioA.D_final ∧ 0 < scenarioA.feed_rate ∧
      0 < scenarioA.cutting_speed ∧
    ((∃ r : CostResult, app_calc mathPi scenarioA = some r ∧
      r.spindle_speed = 1000 * scenarioA.cutting_speed / (mathPi * scenarioA.D_final) ∧
      r.machining_cost =
        (scenarioA.L_raw /
            (scenarioA.feed_rate * (1000 * scenarioA.cutting_speed / (mathPi * scenarioA.D_final))) +
          scenarioA.chamfer_time) / 60 * scenarioA.MHR) ∧
    (∃ r : App2Result, app2_calc mathPi scenarioA = some r ∧
      r.spindle_speed = 1000 * scenarioA.cutting_speed / (mathPi * scenarioA.D_final) ∧
      r.machining_cost =
        (scenarioA.L_raw /
            (scenarioA.feed_rate * (1000 * scenarioA.cutting_speed / (mathPi * scenarioA.D_final))) +
          scenarioA.chamfer_time) / 60 * scenarioA.MHR)) :=
  ⟨by norm_num [mathPi], by norm_num [scenarioA], by norm_num [scenarioA],
   by norm_num [scenarioA],
   spindle_and_machining_cost_formulas mathPi scenarioA (by norm_num [mathPi])
     (by norm_num [scenarioA]) (by norm_num [scenarioA]) (by norm_num [scenarioA])⟩

/-- C8: for finalDiameterMm > 0, feedRateMmPerRev > 0 and cuttingSpeedMPerMin > 0
(with 0 < pi), the calculation blocks of app.py, app1.py and app2.py all succeed
and produce identical materialCost, machiningCost and totalCost. -/
theorem variants_agree (pi : ℚ) (i : MachiningInput)
    (hpi : 0 < pi) (hd : 0 < i.D_final) (hf : 0 < i.feed_rate) (hc : 0 < i.cutting_speed) :
    ∃ (r : CostResult) (r1 : App1Result) (r2 : App2Result),
      app_calc pi i = some r ∧ app1_calc pi i = some r1 ∧ app2_calc pi i = some r2 ∧
      r1.material_cost = r.material_cost ∧ r2.material_cost = r.material_cost ∧
      r1.machining_cost = XF.fin r.machining_cost ∧ r2.machining_cost = r.machining_cost ∧
      r1.total_cost = XF.fin r.total_cost ∧ r2.total_cost = r.total_cost :=
  ⟨_, _, _, app_calc_pos pi i hpi hd hf hc, app1_calc_pos pi i hpi hd hf hc,
   app2_calc_pos pi i hpi hd hf hc, rfl, rfl, rfl, rfl, rfl, rfl⟩

/-- Witness for C8 at Scenario A with pi := mathPi. -/
theorem variants_agree_witness :
    (0 : ℚ) < mathPi ∧ 0 < scenarioA.D_final ∧ 0 < scenarioA.feed_rate ∧
      0 < scenarioA.cutting_speed ∧
    ∃ (r : CostResult) (r1 : App1Result) (r2 : App2Result),
      app_calc mathPi scenarioA = some r ∧ app1_calc mathPi scenarioA = some r1 ∧
      app2_calc mathPi scenarioA = some r2 ∧
      r1.material_cost = r.material_cost ∧ r2.material_cost = r.material_cost ∧
      r1.machining_cost = XF.fin r.machining_cost ∧ r2.machining_cost = r.machining_cost ∧
      r1.total_cost = XF.fin r.total_cost ∧ r2.total_cost = r.total_cost :=
  ⟨by norm_num [mathPi], by norm_num [scenarioA], by norm_num [scenarioA],
   by norm_num [scenarioA],
   variants_agree mathPi scenarioA (by norm_num [mathPi]) (by norm_num [scenarioA])
     (by norm_num [scenarioA]) (by norm_num [scenarioA])⟩

/-- C9: in app2.py, for finalDiameterMm > 0 and cuttingSpeedMPerMin > 0 (with
0 < pi) the computed spindle_speed is strictly positive, so when additionally
feedRateMmPerRev > 0 the fallback machining_time = 0.0 branch is not taken and
machining_time = rawLengthMm / (feedRateMmPerRev · spindle_speed). -/
theorem app2_spindle_pos_time (pi : ℚ) (i : MachiningInput)
    (hpi : 0 < pi) (hd : 0 < i.D_final) (hc : 0 < i.cutting_speed) :
    ∃ r : App2Result, app2_calc pi i = some r ∧ 0 < r.spindle_speed ∧
      (0 < i.feed_rate →
        r.machining_time = some (i.L_raw / (i.feed_rate * r.spindle_speed))) := by
  have h1 : pi * i.D_final ≠ 0 := by positivity
  have hs : 0 < 1000 * i.cutting_speed / (pi * i.D_final) := by positivity
  have heq : app2_calc pi i = some
      ⟨volume_cm3 pi i, weight_kg pi i, material_cost pi i,
       1000 * i.cutting_speed / (pi * i.D_final),
       some (if 0 < 1000 * i.cutting_speed / (pi * i.D_final) ∧ 0 < i.feed_rate
         then i.L_raw / (i.feed_rate * (1000 * i.cutting_speed / (pi * i.D_final))) else 0),
       some ((if 0 < 1000 * i.cutting_speed / (pi * i.D_final) ∧ 0 < i.feed_rate
         then i.L_raw / (i.feed_rate * (1000 * i.cutting_speed / (pi * i.D_final))) else 0) +
         i.chamfer_time),
       some (((if 0 < 1000 * i.cutting_speed / (pi * i.D_final) ∧ 0 < i.feed_rate
         then i.L_raw / (i.feed_rate * (1000 * i.cutting_speed / (pi * i.D_final))) else 0) +
         i.chamfer_time) / 60),
       ((if 0 < 1000 * i.cutting_speed / (pi * i.D_final) ∧ 0 < i.feed_rate
         then i.L_raw / (i.feed_rate * (1000 * i.cutting_speed / (pi * i.D_final))) else 0) +
         i.chamfer_time) / 60 * i.MHR,
       material_cost pi i +
         ((if 0 < 1000 * i.cutting_speed / (pi * i.D_final) ∧ 0 < i.feed_rate
           then i.L_raw / (i.feed_rate * (1000 * i.cutting_speed / (pi * i.D_final))) else 0) +
           i.chamfer_time) / 60 * i.MHR⟩ := by
    simp only [app2_calc, if_pos hd, if_neg h1]
  refine ⟨_, heq, hs, fun hf => ?_⟩
  dsimp only
  rw [if_pos ⟨hs, hf⟩]

/-- Witness for C9 at Scenario A with pi := mathPi. -/
theorem app2_spindle_pos_time_witness :
    (0 : ℚ) < mathPi ∧ 0 < scenarioA.D_final ∧ 0 < scenarioA.cutting_speed ∧
    ∃ r : App2Result, app2_calc mathPi scenarioA = some r ∧ 0 < r.spindle_speed ∧
      (0 < scenarioA.feed_rate →
        r.machining_time = some (scenarioA.L_raw / (scenarioA.feed_rate * r.spindle_speed))) :=
  ⟨by norm_num [mathPi], by norm_num [scenarioA], by norm_num [scenarioA],
   app2_spindle_pos_time mathPi scenarioA (by norm_num [mathPi])
     (by norm_num [scenarioA]) (by norm_num [scenarioA])⟩

/-- C10: materialCost (shared by the three variants) is monotonically
non-decreasing in each of rawDiameterMm, rawLengthMm, densityGPerCm3 and
costPerKg, for non-negative inputs. -/
theorem material_cost_monotone (pi : ℚ) (i : MachiningInput) (hpi : 0 ≤ pi)
    (hD : 0 ≤ i.D_raw) (hL : 0 ≤ i.L_raw) (hden : 0 ≤ i.density)
    (hck : 0 ≤ i.cost_per_kg) :
    (∀ d, i.D_raw ≤ d → material_cost pi i ≤ material_cost pi { i with D_raw := d }) ∧
    (∀ l, i.L_raw ≤ l → material_cost pi i ≤ material_cost pi { i with L_raw := l }) ∧
    (∀ x, i.density ≤ x → material_cost pi i ≤ material_cost pi { i with density := x }) ∧
    (∀ c, i.cost_per_kg ≤ c → material_cost pi i ≤ material_cost pi { i with cost_per_kg := c }) := by
  unfold material_cost weight_kg volume_cm3 volume_mm3
  refine ⟨fun d hd => ?_, fun l hl => ?_, fun x hx => ?_, fun c hc => ?_⟩ <;>
    dsimp only <;> gcongr

/-- Witness for C10 at Scenario A with pi := mathPi. -/
theorem material_cost_monotone_witness :
    (0 : ℚ) ≤ mathPi ∧ 0 ≤ scenarioA.D_raw ∧ 0 ≤ scenarioA.L_raw ∧
      0 ≤ scenarioA.density ∧ 0 ≤ scenarioA.cost_per_kg ∧
    ((∀ d, scenarioA.D_raw ≤ d →
        material_cost mathPi scenarioA ≤ material_cost mathPi { scenarioA with D_raw := d }) ∧
     (∀ l, scenarioA.L_raw ≤ l →
        material_cost mathPi scenarioA ≤ material_cost mathPi { scenarioA with L_raw := l }) ∧
     (∀ x, scenarioA.density ≤ x →
        material_cost mathPi scenarioA ≤ material_cost mathPi { scenarioA with density := x }) ∧
     (∀ c, scenarioA.cost_per_kg ≤ c →
        material_cost mathPi scenarioA ≤ material_cost mathPi { scenarioA with cost_per_kg := c })) :=
  ⟨by norm_num [mathPi], by norm_num [scenarioA], by norm_num [scenarioA],
   by norm_num [scenarioA], by norm_num [scenarioA],
   material_cost_monotone mathPi scenarioA (by norm_num [mathPi]) (by norm_num [scenarioA])
     (by norm_num [scenarioA]) (by norm_num [scenarioA]) (by norm_num [scenarioA])⟩

/-- C7: at Scenario A (the default inputs of app.py), for any rational pi in
the float bracket (3.1415926, 3.1415927), the computation yields
materialCost ≈ 125.79, machiningCost ≈ 163.56 and totalCost ≈ 289.35, each
within 0.5, and the stated intermediates each within 0.5 as well. -/
theorem scenarioA_costs (pi : ℚ) (hlo : 3.1415926 < pi) (hhi : pi < 3.1415927) :
    ∃ r : CostResult, app_calc pi scenarioA = some r ∧
      |r.volume_cm3 - 291.36| ≤ 0.5 ∧ |r.weight_kg - 2.287| ≤ 0.5 ∧
      |r.material_cost - 125.79| ≤ 0.5 ∧ |r.spindle_speed - 176.84| ≤ 0.5 ∧
      |r.machining_time - 7.267| ≤ 0.5 ∧ |r.total_time_min - 12.267| ≤ 0.5 ∧
      |r.machining_cost - 163.56| ≤ 0.5 ∧ |r.total_cost - 289.35| ≤ 0.5 := by
  have hpi : (0 : ℚ) < pi := lt_trans (by norm_num) hlo
  have hSlo : (176.8 : ℚ) ≤ 1000 * 20 / (pi * 36) := by
    rw [le_div_iff₀ (by positivity)]
    nlinarith
  have hShi : 1000 * 20 / (pi * 36) ≤ (176.9 : ℚ) := by
    rw [div_le_iff₀ (by positivity)]
    nlinarith
  have hmt : (257 : ℚ) / (0.2 * (1000 * 20 / (pi * 36))) = 2313 * pi / 1000 := by
    rw [show (0.2 : ℚ) * (1000 * 20 / (pi * 36)) = 4000 / (pi * 36) from by ring,
      div_div_eq_mul_div]
    ring
  refine ⟨_, app_calc_pos pi scenarioA hpi (by norm_num [scenarioA])
    (by norm_num [scenarioA]) (by norm_num [scenarioA]),
    ?_, ?_, ?_, ?_, ?_, ?_, ?_, ?_⟩ <;>
    simp only [scenarioA, volume_cm3, volume_mm3, weight_kg, material_cost] <;>
    rw [abs_le] <;>
    constructor <;>
    nlinarith [hSlo, hShi, hmt, hlo, hhi]

/-- Witness for C7 at the concrete rational pi = 3.14159265. -/
theorem scenarioA_costs_witness :
    (3.1415926 : ℚ) < 3.14159265 ∧ (3.14159265 : ℚ) < 3.1415927 ∧
    ∃ r : CostResult, app_calc 3.14159265 scenarioA = some r ∧
      |r.volume_cm3 - 291.36| ≤ 0.5 ∧ |r.weight_kg - 2.287| ≤ 0.5 ∧
      |r.material_cost - 125.79| ≤ 0.5 ∧ |r.spindle_speed - 176.84| ≤ 0.5 ∧
      |r.machining_time - 7.267| ≤ 0.5 ∧ |r.total_time_min - 12.267| ≤ 0.5 ∧
      |r.machining_cost - 163.56| ≤ 0.5 ∧ |r.total_cost - 289.35| ≤ 0.5 :=
  ⟨by norm_num, by norm_num,
   scenarioA_costs 3.14159265 (by norm_num) (by norm_num)⟩
